import Mathlib

/-!
Verification of the x2misskey relay: a shallow embedding of the stream
connector (x-client startStream retry loop) and the tweet router
(routeTweet, buildCleanTweetText, uploadMediaFiles), together with
spec-modelled definitions for the conversation-aware routing pieces whose
current implementation is not present in the source snapshot.

Conventions: JavaScript numbers are modelled as Nat (Int where the source
compares against -1); JavaScript string operations are modelled by
executable functions over lists of characters; async effects are modelled
by environments of explicit functions returning Except values; thrown
exceptions are Except.error.
-/

/-! ## Stream connector (x-client.ts, XStreamClient) -/

/-- Reconnect configuration, with the fallback defaults applied in
startStream (maxRetries 10, initialDelayMs 1000, maxDelayMs 60000,
backoffMultiplier 2, enabled true). -/
structure ReconnectPolicy where
  enabled : Bool := true
  maxRetries : Int := 10
  initialDelayMs : Nat := 1000
  maxDelayMs : Nat := 60000
  backoffMultiplier : Nat := 2
deriving DecidableEq, Repr

/-- A connection fault; status models error.response?.status from axios. -/
structure Fault where
  status : Option Nat := none
  message : String := ""
deriving DecidableEq, Repr

/-- XStreamClient._calculateBackoffDelay: min(initialDelayMs * multiplier ^ retryCount, maxDelayMs). -/
def calculateBackoffDelay (retryCount initialDelayMs maxDelayMs multiplier : Nat) : Nat :=
  min (initialDelayMs * multiplier ^ retryCount) maxDelayMs

/-- XStreamClient._isRateLimitError: err?.response?.status === 429. -/
def isRateLimitError (f : Fault) : Bool :=
  f.status == some 429

/-- How a single pass through _connectStream ends once the connection was
established: either the stream closes/ends cleanly, or a stream error is
rejected (and rethrown).  The Bool records whether the subsequent
_killAllConnections call (made only for 429 faults) itself fails; the
source swallows that failure, so the semantics must not depend on it. -/
inductive StreamEnd where
  | clean : StreamEnd
  | fault : Fault → Bool → StreamEnd
deriving DecidableEq, Repr

/-- Result of one iteration of the while loop in startStream: the
connection attempt itself fails (retryCount is not reset), or the
connection is established (retryCount is reset to 0) and then the stream
ends as described.  The Bool on connectFail is the kill-call failure flag
as in StreamEnd.fault. -/
inductive AttemptResult where
  | connectFail : Fault → Bool → AttemptResult
  | connected : StreamEnd → AttemptResult
deriving DecidableEq, Repr

/-- Observable side effects of the retry loop. -/
inductive LoopAction where
  | killAllConnections : LoopAction
  | sleep : Nat → LoopAction
deriving DecidableEq, Repr

/-- How the loop in startStream finishes: a fatal re-raise once retries
are exhausted, a normal exit (clean close with reconnect disabled), or
pending: the supplied attempt results ran out while the loop would keep
going, carrying the retryCount it would continue with. -/
inductive StreamOutcome where
  | fatal : Fault → StreamOutcome
  | ended : StreamOutcome
  | pending : Nat → StreamOutcome
deriving DecidableEq, Repr

/-- The retry condition from startStream: maxRetries === -1 || retryCount < maxRetries. -/
def shouldRetryB (p : ReconnectPolicy) (retryCount : Nat) : Bool :=
  p.maxRetries == (-1 : Int) || (retryCount : Int) < p.maxRetries

/-- The remediation actions performed in the catch block before the retry
check: _killAllConnections is called exactly when the fault is a 429.  Its
own failure is caught inside _killAllConnections, so no failure flag
appears here. -/
def killActions (f : Fault) : List LoopAction :=
  if isRateLimitError f then [LoopAction.killAllConnections] else []

/-- The while loop of XStreamClient.startStream, driven by a list of
attempt results (shouldStop is never set in this model; stop() is outside
the claims).  Mirrors: try connect; on clean close break if reconnect
disabled, else loop (retryCount was reset to 0 on connect); on error,
kill connections if 429, check shouldRetry, either sleep the backoff
delay and increment retryCount or rethrow the fault. -/
def startStreamRun (p : ReconnectPolicy) : Nat → List AttemptResult → List LoopAction × StreamOutcome
  | rc, [] => ([], StreamOutcome.pending rc)
  | _, AttemptResult.connected StreamEnd.clean :: rest =>
    if p.enabled then startStreamRun p 0 rest else ([], StreamOutcome.ended)
  | _, AttemptResult.connected (StreamEnd.fault f _) :: rest =>
    if shouldRetryB p 0 then
      let r := startStreamRun p 1 rest
      (killActions f ++ LoopAction.sleep (calculateBackoffDelay 0 p.initialDelayMs p.maxDelayMs p.backoffMultiplier) :: r.1, r.2)
    else (killActions f, StreamOutcome.fatal f)
  | rc, AttemptResult.connectFail f _ :: rest =>
    if shouldRetryB p rc then
      let r := startStreamRun p (rc + 1) rest
      (killActions f ++ LoopAction.sleep (calculateBackoffDelay rc p.initialDelayMs p.maxDelayMs p.backoffMultiplier) :: r.1, r.2)
    else (killActions f, StreamOutcome.fatal f)

/-- Entry point: startStream initialises retryCount to 0. -/
def startStream (p : ReconnectPolicy) (attempts : List AttemptResult) : List LoopAction × StreamOutcome :=
  startStreamRun p 0 attempts

/-! ## Data model (x-client.ts interfaces; mention and annotation entities
are omitted because no embedded operation reads them) -/

structure XUser where
  id : String
  name : String
  username : String
deriving DecidableEq, Repr

structure TweetEntityUrl where
  url : String
  expanded_url : Option String := none
  display_url : Option String := none
  media_key : Option String := none
deriving DecidableEq, Repr

structure TweetEntities where
  urls : Option (List TweetEntityUrl) := none
deriving DecidableEq, Repr

structure ReferencedTweet where
  type : String
  id : String
deriving DecidableEq, Repr

structure TweetAttachments where
  media_keys : List String := []
deriving DecidableEq, Repr

/-- Tweet record; the optional referenced_tweets array is modelled with []
for absent, which the lineage walk cannot distinguish from an empty
array. -/
structure Tweet where
  id : String
  text : String
  author_id : Option String := none
  conversation_id : Option String := none
  referenced_tweets : List ReferencedTweet := []
  entities : Option TweetEntities := none
  attachments : Option TweetAttachments := none
  possibly_sensitive : Option Bool := none
deriving DecidableEq, Repr

structure MediaVariant where
  bit_rate : Option Nat := none
  content_type : String
  url : String
deriving DecidableEq, Repr

structure MediaItem where
  media_key : String
  type : String
  url : Option String := none
  alt_text : Option String := none
  variants : List MediaVariant := []
deriving DecidableEq, Repr

structure StreamIncludes where
  users : Option (List XUser) := none
  media : Option (List MediaItem) := none
deriving DecidableEq, Repr

structure StreamMessage where
  data : Tweet
  includes : Option StreamIncludes := none
deriving DecidableEq, Repr

/-! ## Configuration (config.ts) -/

structure UserMapping where
  xUserId : String
  misskeyServer : String
  misskeyToken : String
  misskeyUserId : String
  enabled : Bool
deriving DecidableEq, Repr

structure AppConfig where
  userMappings : List UserMapping
deriving DecidableEq, Repr

/-- config.ts getAiMappingByXUserId: first mapping with matching xUserId and enabled. -/
def getAiMappingByXUserId (config : AppConfig) (xUserId : String) : Option UserMapping :=
  config.userMappings.find? (fun m => m.xUserId == xUserId && m.enabled)

/-- config.ts getAllEnabledMappings. -/
def getAllEnabledMappings (config : AppConfig) : List UserMapping :=
  config.userMappings.filter (fun m => m.enabled)

/-- The key set of the misskeyClients map built in the TweetRouter
constructor: one entry per enabled mapping, keyed by xUserId. -/
def misskeyClientKeys (config : AppConfig) : List String :=
  (getAllEnabledMappings config).map (fun m => m.xUserId)

/-! ## JavaScript string primitives, modelled over character lists -/

/-- JavaScript truthiness of an optional string: present and non-empty. -/
def strTruthy : Option String → Bool
  | some s => s != ""
  | none => false

/-- JavaScript a || b for an optional string a and default b (empty string
is falsy). -/
def jsOrS (a : Option String) (b : String) : String :=
  match a with
  | some s => if s == "" then b else s
  | none => b

/-- String.prototype.replaceAll: replace non-overlapping occurrences left
to right.  Fuel-driven; fuel at least the list length suffices for a
non-empty pattern. -/
def jsReplaceAllAux (pat rep : List Char) : Nat → List Char → List Char
  | 0, s => s
  | _ + 1, [] => []
  | fuel + 1, c :: cs =>
    if pat.isPrefixOf (c :: cs) then
      rep ++ jsReplaceAllAux pat rep fuel ((c :: cs).drop pat.length)
    else c :: jsReplaceAllAux pat rep fuel cs

/-- String.prototype.replaceAll on strings.  The source never calls it
with an empty pattern; that case is modelled as the identity. -/
def jsReplaceAll (s pat rep : String) : String :=
  if pat.toList.isEmpty then s
  else (jsReplaceAllAux pat.toList rep.toList (s.toList.length + 1) s.toList).asString

/-- String.prototype.trim (whitespace modelled as ASCII whitespace). -/
def jsTrim (s : String) : String :=
  (((s.toList.dropWhile Char.isWhitespace).reverse.dropWhile Char.isWhitespace).reverse).asString

/-- Does pat occur as a contiguous run inside s? -/
def hasSubstrList (pat : List Char) : List Char → Bool
  | [] => pat.isEmpty
  | c :: cs => pat.isPrefixOf (c :: cs) || hasSubstrList pat cs

/-- Substring test, used to state absence of a token in an output. -/
def hasSubstr (s pat : String) : Bool :=
  hasSubstrList pat.toList s.toList

/-! ## Tweet router (router.ts, TweetRouter) -/

/-- Does the suffix match https followed by the t.co host and one or more
ASCII alphanumerics, exactly to the end of the string? -/
def isTcoTail (cs : List Char) : Bool :=
  ("https://t.co/".toList).isPrefixOf cs
    && !(cs.drop 13).isEmpty
    && (cs.drop 13).all (fun c => c.isAlpha || c.isDigit)

/-- One position of the anchored pattern with its optional single leading
whitespace character. -/
def tcoMatchHere (cs : List Char) : Bool :=
  isTcoTail cs ||
    (match cs with
     | c :: rest => c.isWhitespace && isTcoTail rest
     | [] => false)

/-- Index of the leftmost match of the anchored trailing t.co pattern. -/
def findTcoIdx : List Char → Option Nat
  | [] => none
  | c :: rest =>
    if tcoMatchHere (c :: rest) then some 0
    else (findTcoIdx rest).map (fun i => i + 1)

/-- The single regex replace in buildCleanTweetText: delete a trailing
t.co link (with an optional preceding whitespace character) anchored at
the end of the text. -/
def stripTrailingTco (s : String) : String :=
  match findTcoIdx s.toList with
  | some i => (s.toList.take i).asString
  | none => s

/-- The final unescaping chain of buildCleanTweetText: trim, then replace
the three HTML entities, amp first. -/
def htmlUnescapeTrim (s : String) : String :=
  jsReplaceAll (jsReplaceAll (jsReplaceAll (jsTrim s) "&amp;" "&") "&lt;" "<") "&gt;" ">"

/-- TweetRouter.buildCleanTweetText: strip a trailing t.co link when the
tweet has attachments, rewrite each URL entity occurrence as a markdown
link with JS-truthy fallbacks display_url, expanded_url, url, then trim
and unescape. -/
def buildCleanTweetText (text : String) (urls : Option (List TweetEntityUrl)) (hasAttachments : Bool) : String :=
  let t1 := if hasAttachments then stripTrailingTco text else text
  let t2 := (urls.getD []).foldl
    (fun acc u =>
      let displayUrl := jsOrS u.display_url (jsOrS u.expanded_url u.url)
      let expandedUrl := jsOrS u.expanded_url u.url
      jsReplaceAll acc u.url ("[" ++ displayUrl ++ "](" ++ expandedUrl ++ ")")) t1
  htmlUnescapeTrim t2

/-- Options object passed to MisskeyClient.uploadMediaFromUrl. -/
structure UploadOptions where
  isSensitive : Bool
  altText : Option String := none
deriving DecidableEq, Repr

/-- Options object passed to MisskeyClient.postNote. -/
structure NoteOptions where
  visibility : String
  fileIds : Option (List String) := none
deriving DecidableEq, Repr

/-- The downstream Misskey capabilities as seen by the router; Except
models a thrown exception.  uploadMediaFromUrl may return none (the
source returns null on upload failure) or throw; postNote rethrows its
failures. -/
structure RouteEnv where
  uploadMediaFromUrl : String → UploadOptions → Except String (Option String)
  postNote : String → NoteOptions → Except String Unit

/-- The upload loop of TweetRouter.uploadMediaFiles: for each photo item,
build the options (altText only when alt_text is truthy), call the
upload, and collect truthy file ids; exceptions propagate. -/
def uploadMediaFilesGo (env : RouteEnv) (isSensitive : Bool) : List MediaItem → List String → Except String (List String)
  | [], acc => Except.ok acc
  | m :: rest, acc =>
    match env.uploadMediaFromUrl (m.url.getD "")
      { isSensitive := isSensitive,
        altText := if strTruthy m.alt_text then m.alt_text else none } with
    | Except.error e => Except.error e
    | Except.ok fid =>
      match fid with
      | some f =>
        if f != "" then uploadMediaFilesGo env isSensitive rest (acc ++ [f])
        else uploadMediaFilesGo env isSensitive rest acc
      | none => uploadMediaFilesGo env isSensitive rest acc

/-- TweetRouter.uploadMediaFiles: filter the enrichment media down to
photo items with a truthy url, then upload each in order. -/
def uploadMediaFiles (env : RouteEnv) (msg : StreamMessage) (isSensitive : Bool) : Except String (List String) :=
  let mediaItems := (msg.includes.bind (fun i => i.media)).getD []
  let photoItems := mediaItems.filter (fun m => m.type == "photo" && strTruthy m.url)
  uploadMediaFilesGo env isSensitive photoItems []

/-- The body of the try block in TweetRouter.routeTweet: build the handle
from the first enrichment user (fallback unknown), the canonical tweet
URL, the cleaned text, the note content with the Original footer, upload
media, and post the note with visibility public and fileIds only when
non-empty.  Returns the posted note content and file ids. -/
def routeTweetBody (env : RouteEnv) (msg : StreamMessage) : Except String (String × List String) :=
  let tweet := msg.data
  let firstUser := ((msg.includes.bind (fun i => i.users)).getD []).head?
  let authorHandle := jsOrS (firstUser.map (fun u => u.username)) "unknown"
  let tweetUrl := "https://x.com/" ++ authorHandle ++ "/status/" ++ tweet.id
  let cleanedText := buildCleanTweetText tweet.text (tweet.entities.bind (fun e => e.urls)) tweet.attachments.isSome
  let noteContent := cleanedText ++ "\n\nOriginal: ?[" ++ tweetUrl ++ "](" ++ tweetUrl ++ ")"
  match uploadMediaFiles env msg (tweet.possibly_sensitive.getD false) with
  | Except.error e => Except.error e
  | Except.ok fileIds =>
    match env.postNote noteContent
      { visibility := "public",
        fileIds := if fileIds.length > 0 then some fileIds else none } with
    | Except.error e => Except.error e
    | Except.ok _ => Except.ok (noteContent, fileIds)

/-- Observable outcome of TweetRouter.routeTweet. -/
inductive RouteOutcome where
  | skippedNoAuthor : RouteOutcome
  | skippedUnmapped : RouteOutcome
  | skippedNoClient : RouteOutcome
  | posted : String → List String → RouteOutcome
  | droppedError : String → RouteOutcome
deriving DecidableEq, Repr

/-- TweetRouter.routeTweet: guard on a truthy author_id, on a mapping, and
on a client; then run the try block, catching any error into a logged
dropped outcome. -/
def routeTweet (config : AppConfig) (env : RouteEnv) (msg : StreamMessage) : RouteOutcome :=
  if strTruthy msg.data.author_id then
    let authorId := (msg.data.author_id).getD ""
    match getAiMappingByXUserId config authorId with
    | none => RouteOutcome.skippedUnmapped
    | some _ =>
      if (misskeyClientKeys config).contains authorId then
        match routeTweetBody env msg with
        | Except.ok r => RouteOutcome.posted r.1 r.2
        | Except.error e => RouteOutcome.droppedError e
      else RouteOutcome.skippedNoClient
  else RouteOutcome.skippedNoAuthor

/-! ## Spec-modelled router pieces

The repository's current router is conversation-aware: index.ts constructs
the TweetRouter with the stream client (used for conversation lookup via
getConversationTweets), but the router revision bundled in the snapshot
takes only the configuration and contains no reply-lineage walk, no
media-key handling in its URL-entity type, and no video variant
selection, while the stream client in src declares referenced tweets,
media variants and the conversation fetch that only such a router
consumes.  The definitions below therefore model those missing routing
steps from the specification. -/

/-- Modelled from the spec: the reply-lineage walk of the decision
sequence (missing from src; only its collaborator getConversationTweets
and the ReferencedTweet/conversation_id declarations are present).  Walk
strictly the direct-reply lineage starting at the event itself, following
only referenced entries of type replied_to one hop at a time, looking
each parent up in the resolved set; an unresolved parent stops the walk
without skipping; any walked ancestor with a different author than the
original event's author makes the chain mixed; fuel bounds the walk so a
cycle in the upstream data stops the walk rather than skipping or
diverging. -/
def specWalkIsMixed (resolved : List Tweet) (authorId : String) : Nat → Tweet → Bool
  | 0, _ => false
  | fuel + 1, t =>
    match t.referenced_tweets.find? (fun r => r.type == "replied_to") with
    | none => false
    | some r =>
      match resolved.find? (fun p => p.id == r.id) with
      | none => false
      | some parent =>
        if parent.author_id != some authorId then true
        else specWalkIsMixed resolved authorId fuel parent

/-- Modelled from the spec: mixed-reply-chain classification of an event
against the resolved conversation set, with fuel one more than the size
of the resolved set. -/
def specIsMixedReplyChain (resolved : List Tweet) (event : Tweet) (authorId : String) : Bool :=
  specWalkIsMixed resolved authorId (resolved.length + 1) event

/-- Mention entity of the spec data model (accountId, handle). -/
structure MentionEntity where
  accountId : String
  handle : String
deriving DecidableEq, Repr

/-- Modelled from the spec: the text transform (missing from src; the
bundled transform's URL-entity type has no media key while the entity
declaration in src does).  In order: delete every literal occurrence of
the raw token of each URL entity carrying a media key; replace every
literal occurrence of the raw token of each remaining URL entity with a
markdown-style link labelled displayUrl (fallback expandedUrl, fallback
the raw token) targeting expandedUrl (fallback the raw token); replace
each mention occurrence with a markdown-style profile link; trim and
unescape the three HTML entities, amp first. -/
def specTransformText (text : String) (urls : List TweetEntityUrl) (mentions : List MentionEntity) : String :=
  let t1 := (urls.filter (fun u => u.media_key.isSome)).foldl
    (fun acc u => jsReplaceAll acc u.url "") text
  let t2 := (urls.filter (fun u => u.media_key.isNone)).foldl
    (fun acc u =>
      let label := u.display_url.getD (u.expanded_url.getD u.url)
      let target := u.expanded_url.getD u.url
      jsReplaceAll acc u.url ("[" ++ label ++ "](" ++ target ++ ")")) t1
  let t3 := mentions.foldl
    (fun acc mn =>
      jsReplaceAll acc ("@" ++ mn.handle)
        ("[@" ++ mn.handle ++ "](https://x.com/" ++ mn.handle ++ ")")) t2
  htmlUnescapeTrim t3

/-- Does a content type denote an MP4 container? -/
def specIsMp4 (contentType : String) : Bool :=
  contentType == "video/mp4"

/-- Declared bit rate of a variant, absent treated as 0. -/
def specBitRate (v : MediaVariant) : Nat :=
  v.bit_rate.getD 0

/-- One step of the selection scan: keep the current best unless the next
variant has a strictly higher declared bit rate (so the first maximum
wins on ties). -/
def specPickHigher (best : Option MediaVariant) (v : MediaVariant) : Option MediaVariant :=
  match best with
  | none => some v
  | some b => if specBitRate v > specBitRate b then some v else some b

/-- Modelled from the spec: among the variants whose content type denotes
an MP4 container, select the one with the highest declared bit rate, ties
broken by encounter order; none when no MP4 variant exists. -/
def specSelectMp4Variant (variants : List MediaVariant) : Option MediaVariant :=
  (variants.filter (fun v => specIsMp4 v.content_type)).foldl specPickHigher none

/-- Reference definition following the spec wording directly: the leftmost
variant attaining the maximal declared bit rate (first maximum wins). -/
def specFirstMax : List MediaVariant → Option MediaVariant
  | [] => none
  | v :: rest =>
    match specFirstMax rest with
    | none => some v
    | some w => if specBitRate w > specBitRate v then some w else some v

/-- Combine a current best with the best of the remainder, preferring the
current best on ties. -/
def specMax2 (b : MediaVariant) : Option MediaVariant → MediaVariant
  | none => b
  | some w => if specBitRate w > specBitRate b then w else b

/-- Modelled from the spec: media selection for one attachment. Photo
attachments use their direct URL; video attachments use the URL of the
selected MP4 variant (none when no MP4 variant exists, so the attachment
is skipped); other kinds are skipped. -/
def specSelectMediaUrl (m : MediaItem) : Option String :=
  if m.type == "photo" then m.url
  else if m.type == "video" then (specSelectMp4Variant m.variants).map (fun v => v.url)
  else none

/-- External capabilities of the spec router: the Conversation Resolver
(fetchThread) and the media-upload capability returning a media id or
none on failure. -/
structure SpecEnv where
  fetchThread : String → List Tweet
  uploadMedia : String → Bool → Option String → Option String

/-- Skip reasons of the spec decision sequence. -/
inductive SkipReason where
  | noAuthor : SkipReason
  | unmapped : SkipReason
  | mixedReplyChain : SkipReason
deriving DecidableEq, Repr

/-- Observable result of the spec router: the publish invocations made
(body and attachment ids) and the skip reason when the event was
skipped. -/
structure SpecResult where
  published : List (String × List String)
  skipped : Option SkipReason
deriving DecidableEq, Repr

/-- Modelled from the spec: upload each selected media item in order,
passing the sensitivity flag and the alt text truncated to 255
characters; failed or skipped items are omitted from the final list. -/
def specUploadAll (env : SpecEnv) (sensitive : Bool) : List MediaItem → List String
  | [] => []
  | m :: rest =>
    match specSelectMediaUrl m with
    | none => specUploadAll env sensitive rest
    | some u =>
      match env.uploadMedia u sensitive (m.alt_text.map (fun a => (a.toList.take 255).asString)) with
      | some fid => fid :: specUploadAll env sensitive rest
      | none => specUploadAll env sensitive rest

/-- Modelled from the spec: the decision sequence of the Event Router.
Missing author skips; no enabled routing entry skips; when the event is
part of a conversation, resolve the thread and skip a mixed reply chain;
otherwise transform the text, append the canonical-URL footer line built
from the enrichment handle (fallback unknown) and the event id, select
and upload media, and publish exactly once.  Mention entities are not
part of the embedded event model, so the mention step receives an empty
list. -/
def specRoute (config : AppConfig) (env : SpecEnv) (msg : StreamMessage) : SpecResult :=
  match msg.data.author_id with
  | none => { published := [], skipped := some SkipReason.noAuthor }
  | some aid =>
    match getAiMappingByXUserId config aid with
    | none => { published := [], skipped := some SkipReason.unmapped }
    | some _ =>
      let mixed := match msg.data.conversation_id with
        | some cid => specIsMixedReplyChain (env.fetchThread cid) msg.data aid
        | none => false
      if mixed then { published := [], skipped := some SkipReason.mixedReplyChain }
      else
        let firstUser := ((msg.includes.bind (fun i => i.users)).getD []).head?
        let handle := jsOrS (firstUser.map (fun u => u.username)) "unknown"
        let body := specTransformText msg.data.text
            ((msg.data.entities.bind (fun e => e.urls)).getD []) []
          ++ "\n\nOriginal: ?[https://x.com/" ++ handle ++ "/status/" ++ msg.data.id
          ++ "](https://x.com/" ++ handle ++ "/status/" ++ msg.data.id ++ ")"
        let fids := specUploadAll env (msg.data.possibly_sensitive.getD false)
          ((msg.includes.bind (fun i => i.media)).getD [])
        { published := [(body, fids)], skipped := none }

/-! ## Concrete fixtures used by witnesses -/

/-- A configuration with one enabled mapping for X user 42. -/
def cfgA : AppConfig :=
  { userMappings := [{ xUserId := "42", misskeyServer := "https://mk.example",
                       misskeyToken := "tok", misskeyUserId := "u1", enabled := true }] }

/-- A downstream environment whose note posting always fails. -/
def envPostFails : RouteEnv :=
  { uploadMediaFromUrl := fun _ _ => Except.ok none,
    postNote := fun _ _ => Except.error "post failed" }

/-- A downstream environment where uploads and posts succeed. -/
def envAllOk : RouteEnv :=
  { uploadMediaFromUrl := fun _ _ => Except.ok (some "file1"),
    postNote := fun _ _ => Except.ok () }

/-- A spec-router environment: the resolved thread for any conversation is
a single parent tweet by author 99, and uploads succeed. -/
def envThreadOtherAuthor : SpecEnv :=
  { fetchThread := fun _ => [{ id := "p1", text := "parent", author_id := some "99" }],
    uploadMedia := fun _ _ _ => some "mf1" }

/-! ## Helper lemmas -/

/-- A successful mapping lookup implies the router holds a Misskey client
under that author id (the clients map is built from the enabled
mappings). -/
theorem contains_of_mapping {config : AppConfig} {aid : String} {m : UserMapping}
    (h : getAiMappingByXUserId config aid = some m) :
    (misskeyClientKeys config).contains aid = true := by
  unfold getAiMappingByXUserId at h
  have hmem : m ∈ config.userMappings := List.mem_of_find?_eq_some h
  have hpred : (m.xUserId == aid && m.enabled) = true := by
    have := List.find?_some h
    simpa using this
  rw [Bool.and_eq_true] at hpred
  obtain ⟨hx, he⟩ := hpred
  have hxeq : m.xUserId = aid := eq_of_beq hx
  have hmm : aid ∈ misskeyClientKeys config := by
    unfold misskeyClientKeys getAllEnabledMappings
    exact List.mem_map.mpr ⟨m, List.mem_filter.mpr ⟨hmem, he⟩, hxeq⟩
  exact List.elem_iff.mpr hmm

/-- With unlimited retries the loop never reaches the fatal rethrow. -/
theorem startStreamRun_ne_fatal (p : ReconnectPolicy) (h : p.maxRetries = -1) :
    ∀ (evs : List AttemptResult) (rc : Nat) (f : Fault),
      (startStreamRun p rc evs).2 ≠ StreamOutcome.fatal f := by
  intro evs
  induction evs with
  | nil => intro rc f; simp [startStreamRun]
  | cons e rest ih =>
    have hr : ∀ n : Nat, shouldRetryB p n = true := by
      intro n; simp [shouldRetryB, h]
    intro rc f
    cases e with
    | connectFail g b =>
      simp only [startStreamRun, hr, if_true]
      exact ih (rc + 1) f
    | connected se =>
      cases se with
      | clean =>
        by_cases hp : p.enabled
        · simp only [startStreamRun, hp, if_true]
          exact ih 0 f
        · simp [startStreamRun, hp]
      | fault g b =>
        simp only [startStreamRun, hr, if_true]
        exact ih 1 f

/-! ## Claim theorems -/

/-- Claim C2: the backoff delay before retry attempt n equals
min(initialDelay times multiplier to the n, maxDelay); with the defaults
1000, 2, 60000 the delays run 1000, 2000, 4000 and so on, capping at
60000 from n equal 6 onward. -/
theorem c2_backoff_formula (n i m mult k : Nat) (_hi : 0 < i) (_hm : 0 < m)
    (_hmult : 0 < mult) (hk : 6 ≤ k) :
    calculateBackoffDelay n i m mult = min (i * mult ^ n) m
      ∧ calculateBackoffDelay 0 1000 60000 2 = 1000
      ∧ calculateBackoffDelay 1 1000 60000 2 = 2000
      ∧ calculateBackoffDelay 2 1000 60000 2 = 4000
      ∧ calculateBackoffDelay 5 1000 60000 2 = 32000
      ∧ calculateBackoffDelay k 1000 60000 2 = 60000 := by
  refine ⟨rfl, by decide, by decide, by decide, by decide, ?_⟩
  unfold calculateBackoffDelay
  have h64 : (64 : Nat) ≤ 2 ^ k := by
    calc (64 : Nat) = 2 ^ 6 := by norm_num
      _ ≤ 2 ^ k := Nat.pow_le_pow_right (by norm_num) hk
  have hle : (60000 : Nat) ≤ 1000 * 2 ^ k :=
    le_trans (by omega) (Nat.mul_le_mul_left 1000 h64)
  exact min_eq_right hle

/-- Witness for C2 at n equal 3 and k equal 7. -/
theorem c2_backoff_formula_witness :
    (0 < 1000 ∧ 0 < 60000 ∧ 0 < 2 ∧ 6 ≤ 7)
      ∧ (calculateBackoffDelay 3 1000 60000 2 = min (1000 * 2 ^ 3) 60000
          ∧ calculateBackoffDelay 0 1000 60000 2 = 1000
          ∧ calculateBackoffDelay 1 1000 60000 2 = 2000
          ∧ calculateBackoffDelay 2 1000 60000 2 = 4000
          ∧ calculateBackoffDelay 5 1000 60000 2 = 32000
          ∧ calculateBackoffDelay 7 1000 60000 2 = 60000) :=
  ⟨by decide, c2_backoff_formula 3 1000 60000 2 7 (by decide) (by decide) (by decide) (by decide)⟩

/-- Claim C3: with maxRetries 3, four consecutive failed connection
attempts end with the fourth attempt's fault re-raised fatally (three
retries were attempted); with maxRetries -1 the loop never terminates by
retry exhaustion. -/
theorem c3_retry_exhaustion (p q : ReconnectPolicy)
    (hp : p.maxRetries = 3) (hq : q.maxRetries = -1)
    (f1 f2 f3 f4 g : Fault) (b1 b2 b3 b4 : Bool)
    (rest evs : List AttemptResult) (rc : Nat) :
    (startStream p (AttemptResult.connectFail f1 b1 :: AttemptResult.connectFail f2 b2
        :: AttemptResult.connectFail f3 b3 :: AttemptResult.connectFail f4 b4 :: rest)).2
      = StreamOutcome.fatal f4
      ∧ (startStreamRun q rc evs).2 ≠ StreamOutcome.fatal g := by
  have h0 : shouldRetryB p 0 = true := by unfold shouldRetryB; rw [hp]; decide
  have h1 : shouldRetryB p 1 = true := by unfold shouldRetryB; rw [hp]; decide
  have h2 : shouldRetryB p 2 = true := by unfold shouldRetryB; rw [hp]; decide
  have h3 : shouldRetryB p 3 = false := by unfold shouldRetryB; rw [hp]; decide
  refine ⟨?_, startStreamRun_ne_fatal q hq evs rc g⟩
  simp [startStream, startStreamRun, h0, h1, h2, h3]

/-- Witness for C3: concrete policies, faults and attempt lists. -/
theorem c3_retry_exhaustion_witness :
    (({ maxRetries := 3 } : ReconnectPolicy).maxRetries = 3
        ∧ ({ maxRetries := -1 } : ReconnectPolicy).maxRetries = -1)
      ∧ ((startStream { maxRetries := 3 }
            [AttemptResult.connectFail { message := "f1" } false,
             AttemptResult.connectFail { message := "f2" } false,
             AttemptResult.connectFail { message := "f3" } false,
             AttemptResult.connectFail { message := "f4" } false]).2
          = StreamOutcome.fatal { message := "f4" }
        ∧ (startStreamRun { maxRetries := -1 } 0
            [AttemptResult.connectFail { message := "g" } false]).2
          ≠ StreamOutcome.fatal { message := "g" }) :=
  ⟨⟨rfl, rfl⟩,
    c3_retry_exhaustion { maxRetries := 3 } { maxRetries := -1 } rfl rfl
      { message := "f1" } { message := "f2" } { message := "f3" } { message := "f4" }
      { message := "g" } false false false false []
      [AttemptResult.connectFail { message := "g" } false] 0⟩

/-- Claim C7 counterexample: a connection attempt failing with HTTP 401 is
not surfaced immediately as fatal; with retries remaining the loop sleeps
the backoff delay and retries just like any other transport fault. -/
theorem c7_unauthorized_counterexample :
    startStreamRun { maxRetries := 3 } 0
        [AttemptResult.connectFail { status := some 401, message := "Unauthorized" } false]
      = ([LoopAction.sleep 1000], StreamOutcome.pending 1)
      ∧ (startStreamRun { maxRetries := 3 } 0
          [AttemptResult.connectFail { status := some 401, message := "Unauthorized" } false]).2
        ≠ StreamOutcome.fatal { status := some 401, message := "Unauthorized" } := by
  constructor <;> decide

/-- Claim C7 amended: startStream gives unauthorized responses no special
handling; a 401 fault is retried per the backoff policy while retries
remain and re-raised as fatal only once the retry condition fails. -/
theorem c7_unauthorized_retried (p : ReconnectPolicy) (rc : Nat) (f : Fault) (b : Bool)
    (rest : List AttemptResult) (h401 : f.status = some 401) :
    (shouldRetryB p rc = true →
        startStreamRun p rc (AttemptResult.connectFail f b :: rest)
          = (LoopAction.sleep (calculateBackoffDelay rc p.initialDelayMs p.maxDelayMs p.backoffMultiplier)
                :: (startStreamRun p (rc + 1) rest).1,
             (startStreamRun p (rc + 1) rest).2))
      ∧ (shouldRetryB p rc = false →
        startStreamRun p rc (AttemptResult.connectFail f b :: rest)
          = ([], StreamOutcome.fatal f)) := by
  have hk : killActions f = [] := by simp [killActions, isRateLimitError, h401]
  constructor <;> intro h <;> simp [startStreamRun, h, hk]

/-- Witness for C7 amended at a concrete 401 fault. -/
theorem c7_unauthorized_retried_witness :
    ({ status := some 401, message := "A" } : Fault).status = some 401
      ∧ ((shouldRetryB { maxRetries := 3 } 0 = true →
            startStreamRun { maxRetries := 3 } 0
                [AttemptResult.connectFail { status := some 401, message := "A" } false]
              = (LoopAction.sleep (calculateBackoffDelay 0 1000 60000 2)
                    :: (startStreamRun { maxRetries := 3 } 1 []).1,
                 (startStreamRun { maxRetries := 3 } 1 []).2))
          ∧ (shouldRetryB { maxRetries := 3 } 0 = false →
            startStreamRun { maxRetries := 3 } 0
                [AttemptResult.connectFail { status := some 401, message := "A" } false]
              = ([], StreamOutcome.fatal { status := some 401, message := "A" }))) :=
  ⟨rfl, c7_unauthorized_retried { maxRetries := 3 } 0
      { status := some 401, message := "A" } false [] rfl⟩

/-- Claim C6: a 429 fault triggers the terminate-all-connections call
before any retry (first action, before the backoff sleep), both for a
failed connect and for a stream fault after a successful connect; the
run is independent of whether the kill call itself fails (its failure is
swallowed); and with retries remaining a rate-limit fault alone never
ends the loop fatally (the outcome is that of the continuation). -/
theorem c6_rate_limit_remediation (p : ReconnectPolicy) (rc : Nat) (f : Fault) (b b' : Bool)
    (rest : List AttemptResult) (h429 : f.status = some 429)
    (hretry : shouldRetryB p rc = true) (hretry0 : shouldRetryB p 0 = true) :
    (startStreamRun p rc (AttemptResult.connectFail f b :: rest)).1
        = LoopAction.killAllConnections
            :: LoopAction.sleep (calculateBackoffDelay rc p.initialDelayMs p.maxDelayMs p.backoffMultiplier)
            :: (startStreamRun p (rc + 1) rest).1
      ∧ (startStreamRun p rc (AttemptResult.connected (StreamEnd.fault f b) :: rest)).1
        = LoopAction.killAllConnections
            :: LoopAction.sleep (calculateBackoffDelay 0 p.initialDelayMs p.maxDelayMs p.backoffMultiplier)
            :: (startStreamRun p 1 rest).1
      ∧ startStreamRun p rc (AttemptResult.connectFail f b :: rest)
        = startStreamRun p rc (AttemptResult.connectFail f b' :: rest)
      ∧ (startStreamRun p rc (AttemptResult.connectFail f b :: rest)).2
        = (startStreamRun p (rc + 1) rest).2 := by
  have hk : killActions f = [LoopAction.killAllConnections] := by
    simp [killActions, isRateLimitError, h429]
  refine ⟨?_, ?_, rfl, ?_⟩ <;> simp [startStreamRun, hretry, hretry0, hk]

/-- Witness for C6 at a concrete 429 fault with one retry already made. -/
theorem c6_rate_limit_remediation_witness :
    (({ status := some 429, message := "R" } : Fault).status = some 429
        ∧ shouldRetryB { maxRetries := 3 } 1 = true
        ∧ shouldRetryB { maxRetries := 3 } 0 = true)
      ∧ ((startStreamRun { maxRetries := 3 } 1
            [AttemptResult.connectFail { status := some 429, message := "R" } true]).1
          = LoopAction.killAllConnections
              :: LoopAction.sleep (calculateBackoffDelay 1 1000 60000 2)
              :: (startStreamRun { maxRetries := 3 } 2 []).1
        ∧ (startStreamRun { maxRetries := 3 } 1
            [AttemptResult.connected (StreamEnd.fault { status := some 429, message := "R" } true)]).1
          = LoopAction.killAllConnections
              :: LoopAction.sleep (calculateBackoffDelay 0 1000 60000 2)
              :: (startStreamRun { maxRetries := 3 } 1 []).1
        ∧ startStreamRun { maxRetries := 3 } 1
            [AttemptResult.connectFail { status := some 429, message := "R" } true]
          = startStreamRun { maxRetries := 3 } 1
            [AttemptResult.connectFail { status := some 429, message := "R" } false]
        ∧ (startStreamRun { maxRetries := 3 } 1
            [AttemptResult.connectFail { status := some 429, message := "R" } true]).2
          = (startStreamRun { maxRetries := 3 } 2 []).2) :=
  ⟨⟨rfl, by decide, by decide⟩,
    c6_rate_limit_remediation { maxRetries := 3 } 1 { status := some 429, message := "R" }
      true false [] rfl (by decide) (by decide)⟩

/-- Claim C8: the retry counter resets on every successful connection, so
a clean close continues the loop from count 0, a fault arriving after a
successful connect is handled exactly like a very first fault (same
backoff delay, index 0), and a failed connection attempt continues the
loop with the counter incremented exactly once. -/
theorem c8_retry_count_reset (p : ReconnectPolicy) (rc : Nat) (f : Fault) (b : Bool)
    (rest : List AttemptResult) (henabled : p.enabled = true)
    (hretry : shouldRetryB p rc = true) (hnorl : isRateLimitError f = false) :
    startStreamRun p rc (AttemptResult.connected StreamEnd.clean :: rest)
        = startStreamRun p 0 rest
      ∧ startStreamRun p rc (AttemptResult.connected (StreamEnd.fault f b) :: rest)
        = startStreamRun p 0 (AttemptResult.connectFail f b :: rest)
      ∧ startStreamRun p rc (AttemptResult.connectFail f b :: rest)
        = (LoopAction.sleep (calculateBackoffDelay rc p.initialDelayMs p.maxDelayMs p.backoffMultiplier)
              :: (startStreamRun p (rc + 1) rest).1,
           (startStreamRun p (rc + 1) rest).2) := by
  have hk : killActions f = [] := by simp [killActions, hnorl]
  refine ⟨by simp [startStreamRun, henabled], rfl, by simp [startStreamRun, hretry, hk]⟩

/-- Witness for C8 at a concrete non-429 fault and retry count 2. -/
theorem c8_retry_count_reset_witness :
    (({ maxRetries := 3 } : ReconnectPolicy).enabled = true
        ∧ shouldRetryB { maxRetries := 3 } 2 = true
        ∧ isRateLimitError { status := some 500, message := "S" } = false)
      ∧ (startStreamRun { maxRetries := 3 } 2 [AttemptResult.connected StreamEnd.clean]
          = startStreamRun { maxRetries := 3 } 0 []
        ∧ startStreamRun { maxRetries := 3 } 2
            [AttemptResult.connected (StreamEnd.fault { status := some 500, message := "S" } false)]
          = startStreamRun { maxRetries := 3 } 0
            [AttemptResult.connectFail { status := some 500, message := "S" } false]
        ∧ startStreamRun { maxRetries := 3 } 2
            [AttemptResult.connectFail { status := some 500, message := "S" } false]
          = (LoopAction.sleep (calculateBackoffDelay 2 1000 60000 2)
                :: (startStreamRun { maxRetries := 3 } 3 []).1,
             (startStreamRun { maxRetries := 3 } 3 []).2)) :=
  ⟨⟨rfl, by decide, by decide⟩,
    c8_retry_count_reset { maxRetries := 3 } 2 { status := some 500, message := "S" }
      false [] rfl (by decide) (by decide)⟩

/-- Claim C9: every failure inside the routing try block (transform,
media upload, publish) is caught at the routing boundary and converted
into a logged dropped outcome, and a successful body yields the posted
outcome; routeTweet itself is a total function into RouteOutcome and so
never propagates an exception into the stream read loop. -/
theorem c9_routing_boundary (config : AppConfig) (env : RouteEnv) (msg : StreamMessage)
    (m : UserMapping) (e note : String) (fids : List String)
    (h1 : strTruthy msg.data.author_id = true)
    (h2 : getAiMappingByXUserId config ((msg.data.author_id).getD "") = some m) :
    (routeTweetBody env msg = Except.error e →
        routeTweet config env msg = RouteOutcome.droppedError e)
      ∧ (routeTweetBody env msg = Except.ok (note, fids) →
        routeTweet config env msg = RouteOutcome.posted note fids) := by
  have hc := contains_of_mapping h2
  have hcm : (msg.data.author_id.getD "") ∈ misskeyClientKeys config := List.elem_iff.mp hc
  constructor <;> intro hbody <;> simp [routeTweet, h1, h2, hcm, hbody]

/-- Witness for C9: a concrete message whose publish call throws is
dropped, not propagated. -/
theorem c9_routing_boundary_witness :
    (strTruthy ({ data := { id := "1", text := "hello", author_id := some "42" } }
          : StreamMessage).data.author_id = true
        ∧ getAiMappingByXUserId cfgA
            ((({ data := { id := "1", text := "hello", author_id := some "42" } }
              : StreamMessage).data.author_id).getD "")
          = some { xUserId := "42", misskeyServer := "https://mk.example",
                   misskeyToken := "tok", misskeyUserId := "u1", enabled := true })
      ∧ ((routeTweetBody envPostFails { data := { id := "1", text := "hello", author_id := some "42" } }
            = Except.error "post failed" →
          routeTweet cfgA envPostFails { data := { id := "1", text := "hello", author_id := some "42" } }
            = RouteOutcome.droppedError "post failed")
        ∧ (routeTweetBody envPostFails { data := { id := "1", text := "hello", author_id := some "42" } }
            = Except.ok ("n", []) →
          routeTweet cfgA envPostFails { data := { id := "1", text := "hello", author_id := some "42" } }
            = RouteOutcome.posted "n" [])) :=
  ⟨⟨by decide, by decide⟩,
    c9_routing_boundary cfgA envPostFails
      { data := { id := "1", text := "hello", author_id := some "42" } }
      { xUserId := "42", misskeyServer := "https://mk.example",
        misskeyToken := "tok", misskeyUserId := "u1", enabled := true }
      "post failed" "n" [] (by decide) (by decide)⟩

/-- Claim C10: the footer's canonical URL is built from the username of
the first entry of the enrichment user list, with no check of that entry
against the event's author id (the first user here is arbitrary and
unrelated to the author), and when the user list is empty or absent the
literal handle unknown is substituted and the note is still posted with
a footer URL containing unknown. -/
theorem c10_footer_first_user (config : AppConfig) (env : RouteEnv) (msg : StreamMessage)
    (m : UserMapping) (aid : String) (u0 : XUser) (us : List XUser)
    (h1 : msg.data.author_id = some aid) (h1' : aid ≠ "")
    (h2 : getAiMappingByXUserId config aid = some m)
    (hpost : ∀ n o, env.postNote n o = Except.ok ())
    (hmedia : (msg.includes.bind (fun i => i.media)).getD [] = []) :
    ((msg.includes.bind (fun i => i.users)).getD [] = u0 :: us → u0.username ≠ "" →
        routeTweet config env msg
          = RouteOutcome.posted
              (buildCleanTweetText msg.data.text (msg.data.entities.bind (fun e => e.urls))
                  msg.data.attachments.isSome
                ++ "\n\nOriginal: ?["
                ++ ("https://x.com/" ++ u0.username ++ "/status/" ++ msg.data.id)
                ++ "](" ++ ("https://x.com/" ++ u0.username ++ "/status/" ++ msg.data.id) ++ ")")
              [])
      ∧ ((msg.includes.bind (fun i => i.users)).getD [] = [] →
        routeTweet config env msg
          = RouteOutcome.posted
              (buildCleanTweetText msg.data.text (msg.data.entities.bind (fun e => e.urls))
                  msg.data.attachments.isSome
                ++ "\n\nOriginal: ?["
                ++ ("https://x.com/" ++ "unknown" ++ "/status/" ++ msg.data.id)
                ++ "](" ++ ("https://x.com/" ++ "unknown" ++ "/status/" ++ msg.data.id) ++ ")")
              []) := by
  have h1t : strTruthy msg.data.author_id = true := by
    rw [h1]; simpa [strTruthy, bne_iff_ne] using h1'
  have hcm : (msg.data.author_id.getD "") ∈ misskeyClientKeys config := by
    have h2' : getAiMappingByXUserId config (msg.data.author_id.getD "") = some m := by
      rw [h1]; simpa using h2
    exact List.elem_iff.mp (contains_of_mapping h2')
  have h2g : getAiMappingByXUserId config (msg.data.author_id.getD "") = some m := by
    rw [h1]; simpa using h2
  have hupload : uploadMediaFiles env msg (msg.data.possibly_sensitive.getD false)
      = Except.ok [] := by
    unfold uploadMediaFiles
    rw [hmedia]
    simp [uploadMediaFilesGo]
  constructor
  · intro husers hu0
    have hu0b : (u0.username == "") = false := by
      simpa [beq_eq_false_iff_ne] using hu0
    have hbody : routeTweetBody env msg
        = Except.ok
            (buildCleanTweetText msg.data.text (msg.data.entities.bind (fun e => e.urls))
                msg.data.attachments.isSome
              ++ "\n\nOriginal: ?["
              ++ ("https://x.com/" ++ u0.username ++ "/status/" ++ msg.data.id)
              ++ "](" ++ ("https://x.com/" ++ u0.username ++ "/status/" ++ msg.data.id) ++ ")",
             []) := by
      unfold routeTweetBody
      simp [husers, hupload, jsOrS, hu0b, hpost]
    simp [routeTweet, h1t, h2g, hcm, hbody]
  · intro husers
    have hbody : routeTweetBody env msg
        = Except.ok
            (buildCleanTweetText msg.data.text (msg.data.entities.bind (fun e => e.urls))
                msg.data.attachments.isSome
              ++ "\n\nOriginal: ?["
              ++ ("https://x.com/" ++ "unknown" ++ "/status/" ++ msg.data.id)
              ++ "](" ++ ("https://x.com/" ++ "unknown" ++ "/status/" ++ msg.data.id) ++ ")",
             []) := by
      unfold routeTweetBody
      simp [husers, hupload, jsOrS, hpost]
    simp [routeTweet, h1t, h2g, hcm, hbody]

/-- A message by the mapped author with an empty enrichment user list
and no media. -/
def msgNoUsers : StreamMessage :=
  { data := { id := "7", text := "hey", author_id := some "42" },
    includes := some { users := some [], media := none } }

/-- The mapping entry of cfgA. -/
def mapA : UserMapping :=
  { xUserId := "42", misskeyServer := "https://mk.example",
    misskeyToken := "tok", misskeyUserId := "u1", enabled := true }

/-- Witness for C10: a message with an empty enrichment user list is
posted with the unknown handle in the footer. -/
theorem c10_footer_first_user_witness :
    (msgNoUsers.data.author_id = some "42"
        ∧ "42" ≠ ""
        ∧ getAiMappingByXUserId cfgA "42" = some mapA
        ∧ (∀ n o, envAllOk.postNote n o = Except.ok ())
        ∧ (msgNoUsers.includes.bind (fun i => i.media)).getD [] = [])
      ∧ (((msgNoUsers.includes.bind (fun i => i.users)).getD []
            = ({ id := "9", name := "N", username := "alice" } : XUser) :: [] →
          ({ id := "9", name := "N", username := "alice" } : XUser).username ≠ "" →
          routeTweet cfgA envAllOk msgNoUsers
            = RouteOutcome.posted
                (buildCleanTweetText msgNoUsers.data.text
                    (msgNoUsers.data.entities.bind (fun e => e.urls))
                    msgNoUsers.data.attachments.isSome
                  ++ "\n\nOriginal: ?["
                  ++ ("https://x.com/"
                      ++ ({ id := "9", name := "N", username := "alice" } : XUser).username
                      ++ "/status/" ++ msgNoUsers.data.id)
                  ++ "](" ++ ("https://x.com/"
                      ++ ({ id := "9", name := "N", username := "alice" } : XUser).username
                      ++ "/status/" ++ msgNoUsers.data.id) ++ ")")
                [])
        ∧ ((msgNoUsers.includes.bind (fun i => i.users)).getD [] = [] →
          routeTweet cfgA envAllOk msgNoUsers
            = RouteOutcome.posted
                (buildCleanTweetText msgNoUsers.data.text
                    (msgNoUsers.data.entities.bind (fun e => e.urls))
                    msgNoUsers.data.attachments.isSome
                  ++ "\n\nOriginal: ?["
                  ++ ("https://x.com/" ++ "unknown" ++ "/status/" ++ msgNoUsers.data.id)
                  ++ "](" ++ ("https://x.com/" ++ "unknown" ++ "/status/" ++ msgNoUsers.data.id) ++ ")")
                [])) :=
  ⟨⟨rfl, by decide, by decide, fun _ _ => rfl, rfl⟩,
    c10_footer_first_user cfgA envAllOk msgNoUsers mapA "42"
      { id := "9", name := "N", username := "alice" } []
      rfl (by decide) (by decide) (fun _ _ => rfl) rfl⟩

/-- A reply message by author 42 whose direct parent (resolved by
envThreadOtherAuthor) is authored by 99. -/
def msgReplyMixed : StreamMessage :=
  { data := { id := "r", text := "re", author_id := some "42",
              conversation_id := some "c1",
              referenced_tweets := [{ type := "replied_to", id := "p1" }] } }

/-- Claim C1: when the walked direct-reply lineage of a reply event
contains an ancestor by a different author, the router skips the event
as a mixed reply chain with no publish call; when the walk finds no such
ancestor, the router proceeds to transform and publish. -/
theorem c1_mixed_reply_chain (config : AppConfig) (env : SpecEnv) (msg : StreamMessage)
    (m : UserMapping) (aid cid : String)
    (h1 : msg.data.author_id = some aid)
    (h2 : getAiMappingByXUserId config aid = some m)
    (h3 : msg.data.conversation_id = some cid) :
    (specIsMixedReplyChain (env.fetchThread cid) msg.data aid = true →
        specRoute config env msg = { published := [], skipped := some SkipReason.mixedReplyChain })
      ∧ (specIsMixedReplyChain (env.fetchThread cid) msg.data aid = false →
        ∃ body fids, specRoute config env msg
          = { published := [(body, fids)], skipped := none }) := by
  constructor <;> intro hmix
  · simp [specRoute, h1, h2, h3, hmix]
  · refine ⟨specTransformText msg.data.text ((msg.data.entities.bind (fun e => e.urls)).getD []) []
        ++ "\n\nOriginal: ?[https://x.com/"
        ++ jsOrS ((((msg.includes.bind (fun i => i.users)).getD []).head?).map (fun u => u.username)) "unknown"
        ++ "/status/" ++ msg.data.id
        ++ "](https://x.com/"
        ++ jsOrS ((((msg.includes.bind (fun i => i.users)).getD []).head?).map (fun u => u.username)) "unknown"
        ++ "/status/" ++ msg.data.id ++ ")",
      specUploadAll env (msg.data.possibly_sensitive.getD false)
        ((msg.includes.bind (fun i => i.media)).getD []), ?_⟩
    simp [specRoute, h1, h2, h3, hmix]

/-- Witness for C1: a concrete mixed reply chain is skipped unpublished. -/
theorem c1_mixed_reply_chain_witness :
    (msgReplyMixed.data.author_id = some "42"
        ∧ getAiMappingByXUserId cfgA "42" = some mapA
        ∧ msgReplyMixed.data.conversation_id = some "c1")
      ∧ ((specIsMixedReplyChain (envThreadOtherAuthor.fetchThread "c1") msgReplyMixed.data "42" = true →
          specRoute cfgA envThreadOtherAuthor msgReplyMixed
            = { published := [], skipped := some SkipReason.mixedReplyChain })
        ∧ (specIsMixedReplyChain (envThreadOtherAuthor.fetchThread "c1") msgReplyMixed.data "42" = false →
          ∃ body fids, specRoute cfgA envThreadOtherAuthor msgReplyMixed
            = { published := [(body, fids)], skipped := none })) :=
  ⟨⟨rfl, by decide, rfl⟩,
    c1_mixed_reply_chain cfgA envThreadOtherAuthor msgReplyMixed mapA "42" "c1"
      rfl (by decide) rfl⟩

/-- Claim C4: in the spec text transform, a URL entity carrying a media
key has every literal occurrence of its raw token deleted (the transform
factors through replace-all-with-empty, and on the spec example the
token is absent from the output), while a URL entity without a media key
has every occurrence replaced by a markdown link labelled displayUrl
with fallback expandedUrl then the raw token, targeting expandedUrl with
fallback the raw token. -/
theorem c4_url_entity_transform (text : String) (u1 u2 : TweetEntityUrl) (k : String)
    (hk : u1.media_key = some k) (hnk : u2.media_key = none) :
    specTransformText text [u1] [] = htmlUnescapeTrim (jsReplaceAll text u1.url "")
      ∧ specTransformText text [u2] []
        = htmlUnescapeTrim (jsReplaceAll text u2.url
            ("[" ++ u2.display_url.getD (u2.expanded_url.getD u2.url)
              ++ "](" ++ u2.expanded_url.getD u2.url ++ ")"))
      ∧ specTransformText "see t.co/x now" [{ url := "t.co/x", media_key := some "m1" }] []
        = "see  now"
      ∧ hasSubstr (specTransformText "see t.co/x now"
          [{ url := "t.co/x", media_key := some "m1" }] []) "t.co/x" = false
      ∧ specTransformText "go t.co/y now"
          [{ url := "t.co/y", expanded_url := some "https://example.com/page",
             display_url := some "example.com/page" }] []
        = "go [example.com/page](https://example.com/page) now" := by
  refine ⟨?_, ?_, by decide, by decide, by decide⟩
  · simp [specTransformText, hk]
  · simp [specTransformText, hnk]

/-- Witness for C4 at concrete entities with and without a media key. -/
theorem c4_url_entity_transform_witness :
    (({ url := "t.co/a", media_key := some "m9" } : TweetEntityUrl).media_key = some "m9"
        ∧ ({ url := "t.co/b", expanded_url := some "https://e.example/b" }
            : TweetEntityUrl).media_key = none)
      ∧ (specTransformText "pic t.co/a end" [{ url := "t.co/a", media_key := some "m9" }] []
          = htmlUnescapeTrim (jsReplaceAll "pic t.co/a end" "t.co/a" "")
        ∧ specTransformText "pic t.co/a end"
            [{ url := "t.co/b", expanded_url := some "https://e.example/b" }] []
          = htmlUnescapeTrim (jsReplaceAll "pic t.co/a end" "t.co/b"
              ("[" ++ (some "https://e.example/b").getD ((none : Option String).getD "t.co/b")
                ++ "](" ++ (some "https://e.example/b").getD "t.co/b" ++ ")"))
        ∧ specTransformText "see t.co/x now" [{ url := "t.co/x", media_key := some "m1" }] []
          = "see  now"
        ∧ hasSubstr (specTransformText "see t.co/x now"
            [{ url := "t.co/x", media_key := some "m1" }] []) "t.co/x" = false
        ∧ specTransformText "go t.co/y now"
            [{ url := "t.co/y", expanded_url := some "https://example.com/page",
               display_url := some "example.com/page" }] []
          = "go [example.com/page](https://example.com/page) now") :=
  ⟨⟨rfl, rfl⟩,
    c4_url_entity_transform "pic t.co/a end"
      { url := "t.co/a", media_key := some "m9" }
      { url := "t.co/b", expanded_url := some "https://e.example/b" }
      "m9" rfl rfl⟩

/-- The selection scan started from a current best computes the best of
the current value and the remainder, preferring the earlier element on
ties. -/
theorem foldl_specPickHigher (l : List MediaVariant) (b : MediaVariant) :
    l.foldl specPickHigher (some b) = some (specMax2 b (specFirstMax l)) := by
  induction l generalizing b with
  | nil => simp [specMax2, specFirstMax]
  | cons v rest ih =>
    have step : specPickHigher (some b) v
        = some (if specBitRate v > specBitRate b then v else b) := by
      by_cases h : specBitRate v > specBitRate b <;> simp [specPickHigher, h]
    rw [List.foldl_cons, step, ih]
    cases hfm : specFirstMax rest with
    | none =>
      by_cases h : specBitRate v > specBitRate b <;> simp [specMax2, specFirstMax, hfm, h]
    | some w =>
      simp only [specMax2, specFirstMax, hfm]
      by_cases h1 : specBitRate v > specBitRate b
      · by_cases h2 : specBitRate w > specBitRate v
        · have h3 : specBitRate w > specBitRate b := Nat.lt_trans h1 h2
          simp [h1, h2, h3]
        · simp [h1, h2]
      · by_cases h2 : specBitRate w > specBitRate v
        · simp [h1, h2]
        · have h3 : ¬ specBitRate w > specBitRate b := by omega
          simp [h1, h2, h3]

/-- A video attachment with no MP4 variant. -/
def miWebmOnly : MediaItem :=
  { media_key := "mk1", type := "video",
    variants := [{ bit_rate := some 100, content_type := "video/webm", url := "w" }] }

/-- A message by the mapped author carrying only the MP4-less video. -/
def msgVideoNoMp4 : StreamMessage :=
  { data := { id := "5", text := "vid", author_id := some "42" },
    includes := some { users := none, media := some [miWebmOnly] } }

/-- Claim C5: video media selection picks, among the MP4 variants, the
one with the highest declared bit rate and on ties the first maximum
wins (the scan equals the leftmost-maximum reference selection, and on
bit rates 500 and 1200 the 1200 variant is chosen); with no MP4 variant
the attachment yields no media URL and the spec route still publishes,
with an empty attachment list. -/
theorem c5_video_variant_selection (variants : List MediaVariant)
    (config : AppConfig) (env : SpecEnv) (msg : StreamMessage)
    (m : UserMapping) (aid : String) (mi : MediaItem)
    (h1 : msg.data.author_id = some aid)
    (h2 : getAiMappingByXUserId config aid = some m)
    (h3 : msg.data.conversation_id = none)
    (hmedia : (msg.includes.bind (fun i => i.media)).getD [] = [mi])
    (hvid : mi.type = "video")
    (hnomp4 : mi.variants.filter (fun v => specIsMp4 v.content_type) = []) :
    specSelectMp4Variant variants
        = specFirstMax (variants.filter (fun v => specIsMp4 v.content_type))
      ∧ specSelectMp4Variant
          [{ bit_rate := some 500, content_type := "video/mp4", url := "lo" },
           { bit_rate := some 1200, content_type := "video/mp4", url := "hi" }]
        = some { bit_rate := some 1200, content_type := "video/mp4", url := "hi" }
      ∧ specSelectMp4Variant
          [{ bit_rate := some 1200, content_type := "video/mp4", url := "first" },
           { bit_rate := some 1200, content_type := "video/mp4", url := "second" }]
        = some { bit_rate := some 1200, content_type := "video/mp4", url := "first" }
      ∧ specSelectMediaUrl mi = none
      ∧ specRoute config env msg
        = { published :=
              [(specTransformText msg.data.text
                    ((msg.data.entities.bind (fun e => e.urls)).getD []) []
                  ++ "\n\nOriginal: ?[https://x.com/"
                  ++ jsOrS ((((msg.includes.bind (fun i => i.users)).getD []).head?).map
                      (fun u => u.username)) "unknown"
                  ++ "/status/" ++ msg.data.id
                  ++ "](https://x.com/"
                  ++ jsOrS ((((msg.includes.bind (fun i => i.users)).getD []).head?).map
                      (fun u => u.username)) "unknown"
                  ++ "/status/" ++ msg.data.id ++ ")", [])],
            skipped := none } := by
  have hsel : specSelectMediaUrl mi = none := by
    simp [specSelectMediaUrl, hvid, specSelectMp4Variant, hnomp4]
  refine ⟨?_, by decide, by decide, hsel, ?_⟩
  · unfold specSelectMp4Variant
    cases hl : variants.filter (fun v => specIsMp4 v.content_type) with
    | nil => simp [specFirstMax]
    | cons v rest =>
      rw [List.foldl_cons]
      have : specPickHigher none v = some v := rfl
      rw [this, foldl_specPickHigher]
      cases hr : specFirstMax rest with
      | none => simp [specMax2, specFirstMax, hr]
      | some w =>
        simp only [specMax2, specFirstMax, hr]
        by_cases h : specBitRate v < specBitRate w <;> simp [h]
  · have hup : specUploadAll env (msg.data.possibly_sensitive.getD false)
        ((msg.includes.bind (fun i => i.media)).getD []) = [] := by
      rw [hmedia]
      simp [specUploadAll, hsel]
    simp [specRoute, h1, h2, h3, hup, hmedia, hsel, specUploadAll]

/-- Witness for C5 at a video attachment with only a WebM variant. -/
theorem c5_video_variant_selection_witness :
    (msgVideoNoMp4.data.author_id = some "42"
        ∧ getAiMappingByXUserId cfgA "42" = some mapA
        ∧ msgVideoNoMp4.data.conversation_id = none
        ∧ (msgVideoNoMp4.includes.bind (fun i => i.media)).getD [] = [miWebmOnly]
        ∧ miWebmOnly.type = "video"
        ∧ miWebmOnly.variants.filter (fun v => specIsMp4 v.content_type) = [])
      ∧ (specSelectMp4Variant []
          = specFirstMax (List.filter (fun v => specIsMp4 v.content_type) [])
        ∧ specSelectMp4Variant
            [{ bit_rate := some 500, content_type := "video/mp4", url := "lo" },
             { bit_rate := some 1200, content_type := "video/mp4", url := "hi" }]
          = some { bit_rate := some 1200, content_type := "video/mp4", url := "hi" }
        ∧ specSelectMp4Variant
            [{ bit_rate := some 1200, content_type := "video/mp4", url := "first" },
             { bit_rate := some 1200, content_type := "video/mp4", url := "second" }]
          = some { bit_rate := some 1200, content_type := "video/mp4", url := "first" }
        ∧ specSelectMediaUrl miWebmOnly = none
        ∧ specRoute cfgA envThreadOtherAuthor msgVideoNoMp4
          = { published :=
                [(specTransformText msgVideoNoMp4.data.text
                      ((msgVideoNoMp4.data.entities.bind (fun e => e.urls)).getD []) []
                    ++ "\n\nOriginal: ?[https://x.com/"
                    ++ jsOrS ((((msgVideoNoMp4.includes.bind (fun i => i.users)).getD []).head?).map
                        (fun u => u.username)) "unknown"
                    ++ "/status/" ++ msgVideoNoMp4.data.id
                    ++ "](https://x.com/"
                    ++ jsOrS ((((msgVideoNoMp4.includes.bind (fun i => i.users)).getD []).head?).map
                        (fun u => u.username)) "unknown"
                    ++ "/status/" ++ msgVideoNoMp4.data.id ++ ")", [])],
              skipped := none }) :=
  ⟨⟨rfl, by decide, rfl, rfl, rfl, by decide⟩,
    c5_video_variant_selection [] cfgA envThreadOtherAuthor msgVideoNoMp4 mapA "42" miWebmOnly
      rfl (by decide) rfl rfl rfl (by decide)⟩
